import Mathlib

/-!
Shallow embedding of the device session coordinator of `src/main.py`
(`DeviceManager`: `run_command`, `check_connection`, `mount_device`,
`unmount_device`), together with the text-processing it performs on tool
output.  External commands are modelled by an explicit environment (`Env`)
recording whether the tool's executable exists and what the spawned process
would do; every operation returns, besides its Python return value, the list
of `run_command` invocations it made, the log messages it emitted and the
device-info records it published.  A Python exception escaping an operation
is modelled as `Except.error`.  Text processing is implemented structurally
over `List Char` so that every definition evaluates inside the kernel.
-/

/-- Python `str.split(sep)` for a single-character separator, auxiliary loop
carrying the current (reversed) piece. -/
def splitCharAux (sep : Char) : List Char → List Char → List (List Char)
  | [], acc => [acc.reverse]
  | c :: cs, acc =>
    if c = sep then acc.reverse :: splitCharAux sep cs [] else splitCharAux sep cs (c :: acc)

/-- Python `str.split(sep)` for a single-character separator `sep`. -/
def splitChar (sep : Char) (l : List Char) : List (List Char) := splitCharAux sep l []

/-- Whitespace characters stripped by Python `str.strip()` (ASCII subset). -/
def isSpace (c : Char) : Bool :=
  c = ' ' || c = '\t' || c = '\n' || c = '\r' || c = '\x0b' || c = '\x0c'

/-- Drop leading whitespace characters. -/
def dropLeading : List Char → List Char
  | [] => []
  | c :: cs => if isSpace c then dropLeading cs else c :: cs

/-- Python `str.strip()`: drop whitespace from both ends. -/
def pyStrip (s : String) : String :=
  ⟨((dropLeading s.data).reverse |> dropLeading).reverse⟩

/-- Does the character list start with `pat`? -/
def startsWith : List Char → List Char → Bool
  | _, [] => true
  | [], _ :: _ => false
  | c :: cs, p :: ps => c = p && startsWith cs ps

/-- Python `pat in s` substring test on character lists. -/
def containsSub (pat : List Char) : List Char → Bool
  | [] => startsWith [] pat
  | c :: cs => startsWith (c :: cs) pat || containsSub pat cs

/-- Python `pat in s` substring test on strings. -/
def strContains (s pat : String) : Bool := containsSub pat.data s.data

/-- The lines of tool output, splitting at `'\n'` (the source uses
`splitlines()` on `\n`-separated tool output and `split('\n')` for the
identifier list). -/
def splitLines (s : String) : List String := (splitChar '\n' s.data).map String.mk

/-- Python `text.split('\n')[0]`: the first line. -/
def firstLine (s : String) : String :=
  match splitLines s with
  | [] => ""
  | l :: _ => l

/-- Python `line.split(":", 1)` as used under the guard `":" in line`: the
text before the first colon and the text after it. -/
def splitOnceColon (l : String) : String × String :=
  (⟨l.data.takeWhile (fun c => c ≠ ':')⟩, ⟨(l.data.dropWhile (fun c => c ≠ ':')).drop 1⟩)

/-- Lookup in the insertion-ordered association list modelling a Python dict. -/
def dictLookup (d : List (String × String)) (k : String) : Option String :=
  (d.find? (fun p => decide (p.1 = k))).map Prod.snd

/-- Python dict assignment `d[k] = v`: overwrite in place when the key is
present, append at the end otherwise. -/
def dictInsert (d : List (String × String)) (k v : String) : List (String × String) :=
  if d.any (fun p => decide (p.1 = k)) then
    d.map (fun p => if p.1 = k then (k, v) else p)
  else d ++ [(k, v)]

/-- Body of the info-parsing loop of `check_connection` (src/main.py lines
150-153): a line containing a colon is split at the first colon and the
stripped key/value pair is assigned into the dict. -/
def parseStep (d : List (String × String)) (l : String) : List (String × String) :=
  if l.data.contains ':' then
    dictInsert d (pyStrip (splitOnceColon l).1) (pyStrip (splitOnceColon l).2)
  else d

/-- The info-parsing step of `check_connection` (the spec's `parseInfo`),
src/main.py lines 149-153. -/
def parseInfo (raw : String) : List (String × String) :=
  (splitLines raw).foldl parseStep []

/-- Body of the battery loop of `check_connection` (src/main.py lines
161-163), threading the dict: each line containing "CurrentCapacity" assigns
`device_info["BatteryLevel"] = line.split("=")[1].strip()`; on a matching
line without `=` the index `[1]` raises `IndexError`. -/
def batteryLoop (d : List (String × String)) : List String → Except String (List (String × String))
  | [] => Except.ok d
  | l :: ls =>
    if strContains l "CurrentCapacity" then
      match splitChar '=' l.data with
      | _ :: v :: _ => batteryLoop (dictInsert d "BatteryLevel" (pyStrip ⟨v⟩)) ls
      | _ => Except.error "IndexError: list index out of range"
    else batteryLoop d ls

/-- The battery-extraction step of `check_connection` (the spec's
`extractBattery`), src/main.py lines 160-163, run against an empty dict: the
value the loop leaves under "BatteryLevel", or an escaping `IndexError`. -/
def extractBattery (raw : String) : Except String (Option String) :=
  if strContains raw "CurrentCapacity" then
    (batteryLoop [] (splitLines raw)).map (fun d => dictLookup d "BatteryLevel")
  else Except.ok none

/-- What the spawned process would do, were it spawned: run to completion
with an exit code and captured output, outlive the timeout, or make
`subprocess.run` raise. -/
inductive SpawnResult where
  | completed : Int → String → String → SpawnResult
  | timeout : SpawnResult
  | raised : String → SpawnResult
deriving DecidableEq

/-- Environment of one `run_command` invocation: whether the tool's
executable exists on disk, and the outcome of spawning it. -/
structure Env where
  toolExists : Bool
  spawn : SpawnResult
deriving DecidableEq

/-- Python `subprocess.CompletedProcess` as captured by `run_command`. -/
structure CompletedProcess where
  returncode : Int
  stdout : String
  stderr : String
deriving DecidableEq

/-- Observable outcome of one `run_command` call: the Python return value
(`None` on any failure), the log messages emitted (message, severity), and
whether a process was spawned at all. -/
structure RunOutput where
  result : Option CompletedProcess
  logs : List (String × String)
  spawned : Bool
deriving DecidableEq

/-- `DeviceManager.run_command` (src/main.py lines 109-133).  The `timeout`
argument only bounds the spawned process; whether it expires is part of the
environment (`SpawnResult.timeout`). -/
def run_command (command : String) (args : List String) (timeout : Nat) (env : Env) : RunOutput :=
  if env.toolExists then
    match env.spawn with
    | SpawnResult.completed rc out err => ⟨some ⟨rc, out, err⟩, [], true⟩
    | SpawnResult.timeout => ⟨none, [("Command timed out: " ++ command, "error")], true⟩
    | SpawnResult.raised m =>
        ⟨none, [("Command failed: " ++ command ++ " - " ++ m, "error")], true⟩
  else ⟨none, [("Tool not found: " ++ command, "error")], false⟩

/-- The fixed mount point (src/main.py line 106). -/
def mount_point : String := "Z:\\"

/-- Result of one `check_connection` poll: the Python return value (or an
escaping exception as `Except.error`), the stored identifier after the call,
the published device records, the emitted log messages, and the sequence of
`run_command` invocations. -/
structure PollOut where
  ret : Except String Bool
  udid : Option String
  emits : List (List (String × String))
  logs : List (String × String)
  calls : List (String × List String)

/-- `DeviceManager.check_connection` (src/main.py lines 135-169), with the
stored identifier `st` as the prior state and one environment per potential
external command. -/
def check_connection (st : Option String) (e1 e2 e3 : Env) : PollOut :=
  let o1 := run_command "idevice_id.exe" ["-l"] 30 e1
  let calls1 := [("idevice_id.exe", ["-l"])]
  match o1.result with
  | none => ⟨Except.ok false, st, [[]], o1.logs, calls1⟩
  | some r1 =>
    if pyStrip r1.stdout = "" then ⟨Except.ok false, st, [[]], o1.logs, calls1⟩
    else
      let udid := firstLine (pyStrip r1.stdout)
      let o2 := run_command "ideviceinfo.exe" ["-u", udid] 30 e2
      let calls2 := calls1 ++ [("ideviceinfo.exe", ["-u", udid])]
      match o2.result with
      | some r2 =>
        if r2.returncode = 0 then
          let device_info := parseInfo r2.stdout
          let o3 := run_command "idevicediagnostics.exe" ["ioregentry", "AppleSmartBattery"] 30 e3
          let calls3 := calls2 ++ [("idevicediagnostics.exe", ["ioregentry", "AppleSmartBattery"])]
          let logs := o1.logs ++ o2.logs ++ o3.logs
          match o3.result with
          | some r3 =>
            if strContains r3.stdout "CurrentCapacity" then
              match batteryLoop device_info (splitLines r3.stdout) with
              | Except.ok d => ⟨Except.ok true, some udid, [d], logs, calls3⟩
              | Except.error m => ⟨Except.error m, some udid, [], logs, calls3⟩
            else ⟨Except.ok true, some udid, [device_info], logs, calls3⟩
          | none => ⟨Except.ok true, some udid, [device_info], logs, calls3⟩
        else ⟨Except.ok false, some udid, [[]], o1.logs ++ o2.logs, calls2⟩
      | none => ⟨Except.ok false, some udid, [[]], o1.logs ++ o2.logs, calls2⟩

/-- Result of `mount_device`/`unmount_device`: the boolean return value, the
`run_command` invocations made, and the log messages emitted. -/
structure OpOut where
  ret : Bool
  calls : List (String × List String)
  logs : List (String × String)

/-- `DeviceManager.unmount_device` (src/main.py lines 186-189).  Note that
its body does NOT acquire `operation_lock`. -/
def unmount_device (e : Env) : OpOut :=
  let o := run_command "fusermount.exe" ["-u", mount_point] 30 e
  ⟨(match o.result with
    | some r => decide (r.returncode = 0)
    | none => false),
   [("fusermount.exe", ["-u", mount_point])], o.logs⟩

/-- `DeviceManager.mount_device` (src/main.py lines 171-184): requires a
truthy stored identifier, unmounts first, then mounts. -/
def mount_device (st : Option String) (eU eM : Env) : OpOut :=
  match st with
  | none => ⟨false, [], []⟩
  | some u =>
    if u = "" then ⟨false, [], []⟩
    else
      let un := unmount_device eU
      let o := run_command "ifuse.exe" [mount_point, "--udid", u] 30 eM
      ⟨(match o.result with
        | some r => decide (r.returncode = 0)
        | none => false),
       un.calls ++ [("ifuse.exe", [mount_point, "--udid", u])], un.logs ++ o.logs⟩

/-- Events observable from a coordinator operation: acquiring/releasing the
shared `operation_lock`, and issuing an external command via `run_command`. -/
inductive Ev where
  | acq : Ev
  | rel : Ev
  | cmd : String → Ev
deriving DecidableEq

/-- `with self.operation_lock:` wrapping a body that issues the commands
`cs`, in order. -/
def bracket (cs : List String) : List Ev := Ev.acq :: cs.map Ev.cmd ++ [Ev.rel]

/-- The commands `cs`, each tagged with the thread `t` that issues them. -/
def tagCmds (t : Bool) (cs : List String) : List (Bool × String) :=
  cs.map (fun c => (t, c))

/-- Event trace of `check_connection`: its whole body runs under
`operation_lock` (src/main.py line 137). -/
def refreshEvents (st : Option String) (e1 e2 e3 : Env) : List Ev :=
  bracket ((check_connection st e1 e2 e3).calls.map Prod.fst)

/-- Event trace of `mount_device`: its whole body, including the nested
`unmount_device` call, runs under `operation_lock` (src/main.py line 173). -/
def mountEvents (st : Option String) (eU eM : Env) : List Ev :=
  bracket ((mount_device st eU eM).calls.map Prod.fst)

/-- Event trace of a direct `unmount_device` call: its body takes no lock
(src/main.py lines 186-189). -/
def unmountEvents (e : Env) : List Ev :=
  ((unmount_device e).calls.map Prod.fst).map Ev.cmd

/-- A schedule interleaving the events of two threads, `false` and `true`. -/
abbrev Sched := List (Bool × Ev)

/-- The events of thread `t` in a schedule, in order. -/
def proj (t : Bool) : Sched → List Ev
  | [] => []
  | (t', e) :: s => if t' = t then e :: proj t s else proj t s

/-- Mutual-exclusion semantics of `threading.Lock`: acquisition only when
free, release only by the holder; a command event needs no lock (only
operations whose source wraps them in `with operation_lock` surround their
commands with acq/rel). -/
def lockOk : Option Bool → Sched → Bool
  | _, [] => true
  | o, (t, Ev.acq) :: s => decide (o = none) && lockOk (some t) s
  | o, (t, Ev.rel) :: s => decide (o = some t) && lockOk none s
  | o, (_, Ev.cmd _) :: s => lockOk o s

/-- The external commands of a schedule, with their issuing thread. -/
def cmdTrace : Sched → List (Bool × String)
  | [] => []
  | (t, Ev.cmd c) :: s => (t, c) :: cmdTrace s
  | _ :: s => cmdTrace s

/-- Claim-side (C2): the contribution of one line — a line with a colon
contributes the stripped texts before and after its first colon. -/
def infoEntry (l : String) : Option (String × String) :=
  if l.data.contains ':' then
    some (pyStrip (splitOnceColon l).1, pyStrip (splitOnceColon l).2)
  else none

/-- Claim-side (C2): the value of the last contributing line with key `k`. -/
def lastWins (es : List (String × String)) (k : String) : Option String :=
  es.foldl (fun acc p => if p.1 = k then some p.2 else acc) none

/-- Claim-side (C3 amended): fold over the matching lines, keeping the
stripped text between the first and second `=` of the LAST one; error on a
matching line without `=`. -/
def lastField : List String → Option String → Except String (Option String)
  | [], acc => Except.ok acc
  | l :: ls, acc =>
    match splitChar '=' l.data with
    | _ :: v :: _ => lastField ls (some (pyStrip ⟨v⟩))
    | _ => Except.error "IndexError: list index out of range"

/-- Accumulate decimal digits; `none` on a non-digit. -/
def parseDigits : List Char → Nat → Option Nat
  | [], acc => some acc
  | c :: cs, acc =>
    if c.isDigit then parseDigits cs (acc * 10 + (c.toNat - '0'.toNat)) else none

/-- Python `int(s)` on already-stripped text: optional sign, then digits. -/
def pyInt? (s : String) : Option Int :=
  match s.data with
  | '-' :: ds => if ds = [] then none else (parseDigits ds 0).map (fun n => -(n : Int))
  | '+' :: ds => if ds = [] then none else (parseDigits ds 0).map (fun n => (n : Int))
  | ds => if ds = [] then none else (parseDigits ds 0).map (fun n => (n : Int))

/-- The battery-extraction contract exactly as claim C3 words it: the
integer after the first `=` on the FIRST line containing "CurrentCapacity",
absent when no line matches or parsing fails. -/
def extractBatterySpec (raw : String) : Option Int :=
  match (splitLines raw).find? (fun l => strContains l "CurrentCapacity") with
  | some l => pyInt? (pyStrip ⟨(l.data.dropWhile (fun c => c ≠ '=')).drop 1⟩)
  | none => none

/-- The four result kinds of the spec's CommandRunner contract (§4.2). -/
inductive RunKind where
  | ok : RunKind
  | notFound : RunKind
  | timedOut : RunKind
  | ioError : RunKind
deriving DecidableEq

/-- Which kind a `run_command` outcome exhibits, read off its observables:
the returned value, whether a process was spawned, and the emitted log. -/
def IsKind (command : String) (o : RunOutput) : RunKind → Prop
  | RunKind.ok => ∃ r, o.result = some r
  | RunKind.notFound =>
      o.result = none ∧ o.spawned = false ∧
      o.logs = [("Tool not found: " ++ command, "error")]
  | RunKind.timedOut =>
      o.result = none ∧ o.spawned = true ∧
      o.logs = [("Command timed out: " ++ command, "error")]
  | RunKind.ioError =>
      o.result = none ∧ o.spawned = true ∧
      ∃ m, o.logs = [("Command failed: " ++ command ++ " - " ++ m, "error")]

/-- Identifier-lister succeeds with "ABCD1234\n" (spec §8 happy path). -/
def envId : Env := ⟨true, SpawnResult.completed 0 "ABCD1234\n" ""⟩

/-- Info-dumper succeeds with the three-key output of the spec's happy path. -/
def envInfo : Env :=
  ⟨true, SpawnResult.completed 0
    "DeviceName: Test iPhone\nProductType: iPhone14,2\nProductVersion: 16.6\n" ""⟩

/-- Diagnostics-dumper succeeds with "CurrentCapacity = 87\n". -/
def envBattery : Env := ⟨true, SpawnResult.completed 0 "CurrentCapacity = 87\n" ""⟩

/-- Diagnostics-dumper succeeds, but its output has a "CurrentCapacity" line
with no `=`. -/
def envBatteryNoEq : Env := ⟨true, SpawnResult.completed 0 "CurrentCapacity\n" ""⟩

/-- A succeeding environment whose process prints nothing. -/
def envBlank : Env := ⟨true, SpawnResult.completed 0 "" ""⟩

/-- Info-dumper runs but exits with a nonzero code. -/
def envFailInfo : Env := ⟨true, SpawnResult.completed 1 "boom" ""⟩

/-- A lock-respecting schedule in which a concurrent `unmount_device`
command runs in the middle of a `check_connection` critical section. -/
def sBad : Sched :=
  [(false, Ev.acq), (false, Ev.cmd "idevice_id.exe"), (true, Ev.cmd "fusermount.exe"),
   (false, Ev.cmd "ideviceinfo.exe"), (false, Ev.cmd "idevicediagnostics.exe"), (false, Ev.rel)]

/-- A serial schedule: the whole `check_connection` trace, then the whole
`mount_device` trace. -/
def sGood : Sched :=
  (refreshEvents none envId envInfo envBattery).map (fun e => (false, e)) ++
  (mountEvents (some "ABCD1234") envBlank envBlank).map (fun e => (true, e))

theorem dictLookup_cons (a : String × String) (l : List (String × String)) (k : String) :
    dictLookup (a :: l) k = if a.1 = k then some a.2 else dictLookup l k := by
  by_cases h : a.1 = k <;> simp [dictLookup, List.find?, h]

theorem lookup_map_update_self (d : List (String × String)) (k v : String)
    (h : d.any (fun p => decide (p.1 = k)) = true) :
    dictLookup (d.map (fun p => if p.1 = k then (k, v) else p)) k = some v := by
  induction d with
  | nil => simp at h
  | cons a d ih =>
    by_cases ha : a.1 = k
    · simp [dictLookup, List.find?, ha]
    · have h' : d.any (fun p => decide (p.1 = k)) = true := by
        simpa [List.any_cons, ha] using h
      simp only [List.map_cons, if_neg ha]
      rw [dictLookup_cons, if_neg ha]
      exact ih h'

theorem lookup_map_update_ne (d : List (String × String)) (k v k' : String) (h : k' ≠ k) :
    dictLookup (d.map (fun p => if p.1 = k then (k, v) else p)) k' = dictLookup d k' := by
  induction d with
  | nil => rfl
  | cons a d ih =>
    by_cases ha : a.1 = k
    · have hk : ¬ (k = k') := fun hh => h hh.symm
      have ha' : ¬ (a.1 = k') := by rw [ha]; exact hk
      simp only [List.map_cons, if_pos ha]
      rw [dictLookup_cons, dictLookup_cons, if_neg hk, if_neg ha']
      exact ih
    · simp only [List.map_cons, if_neg ha]
      rw [dictLookup_cons, dictLookup_cons]
      by_cases ha' : a.1 = k'
      · rw [if_pos ha', if_pos ha']
      · rw [if_neg ha', if_neg ha']
        exact ih

theorem lookup_append_single_self (d : List (String × String)) (k v : String)
    (h : d.any (fun p => decide (p.1 = k)) = false) :
    dictLookup (d ++ [(k, v)]) k = some v := by
  induction d with
  | nil => simp [dictLookup, List.find?]
  | cons a d ih =>
    have ha : ¬ (a.1 = k) := by
      intro hh
      simp [List.any_cons, hh] at h
    have h' : d.any (fun p => decide (p.1 = k)) = false := by
      simpa [List.any_cons, ha] using h
    rw [List.cons_append, dictLookup_cons, if_neg ha]
    exact ih h'

theorem lookup_append_single_ne (d : List (String × String)) (k v k' : String) (h : k' ≠ k) :
    dictLookup (d ++ [(k, v)]) k' = dictLookup d k' := by
  induction d with
  | nil =>
    have hk : ¬ (k = k') := fun hh => h hh.symm
    simp [dictLookup, List.find?, hk]
  | cons a d ih =>
    rw [List.cons_append, dictLookup_cons, dictLookup_cons]
    by_cases ha : a.1 = k'
    · rw [if_pos ha, if_pos ha]
    · rw [if_neg ha, if_neg ha]
      exact ih

theorem dictLookup_dictInsert (d : List (String × String)) (k v k' : String) :
    dictLookup (dictInsert d k v) k' = if k' = k then some v else dictLookup d k' := by
  by_cases hany : d.any (fun p => decide (p.1 = k)) = true
  · unfold dictInsert
    rw [if_pos hany]
    by_cases hk : k' = k
    · subst hk
      rw [if_pos rfl]
      exact lookup_map_update_self d k' v hany
    · rw [if_neg hk]
      exact lookup_map_update_ne d k v k' hk
  · have hf : d.any (fun p => decide (p.1 = k)) = false := by
      revert hany
      cases d.any (fun p => decide (p.1 = k)) <;> simp
    unfold dictInsert
    rw [if_neg hany]
    by_cases hk : k' = k
    · subst hk
      rw [if_pos rfl]
      exact lookup_append_single_self d k' v hf
    · rw [if_neg hk]
      exact lookup_append_single_ne d k v k' hk

theorem lookup_foldl_parseStep (ls : List String) (d : List (String × String)) (k : String) :
    dictLookup (ls.foldl parseStep d) k =
    (ls.filterMap infoEntry).foldl (fun acc p => if p.1 = k then some p.2 else acc)
      (dictLookup d k) := by
  induction ls generalizing d with
  | nil => rfl
  | cons l ls ih =>
    by_cases hc : l.data.contains ':'
    · have hstep : parseStep d l =
          dictInsert d (pyStrip (splitOnceColon l).1) (pyStrip (splitOnceColon l).2) := by
        unfold parseStep
        rw [if_pos hc]
      have hentry : infoEntry l =
          some (pyStrip (splitOnceColon l).1, pyStrip (splitOnceColon l).2) := by
        unfold infoEntry
        rw [if_pos hc]
      rw [List.foldl_cons, hstep, ih]
      simp only [List.filterMap_cons, hentry, List.foldl_cons]
      rw [dictLookup_dictInsert]
      have hsw : (if k = pyStrip (splitOnceColon l).1 then some (pyStrip (splitOnceColon l).2)
            else dictLookup d k) =
          (if pyStrip (splitOnceColon l).1 = k then some (pyStrip (splitOnceColon l).2)
            else dictLookup d k) := by
        by_cases hh : k = pyStrip (splitOnceColon l).1
        · rw [if_pos hh, if_pos hh.symm]
        · rw [if_neg hh, if_neg (fun hx => hh hx.symm)]
      rw [hsw]
    · have hstep : parseStep d l = d := by
        unfold parseStep
        rw [if_neg hc]
      have hentry : infoEntry l = none := by
        unfold infoEntry
        rw [if_neg hc]
      rw [List.foldl_cons, hstep, ih]
      simp only [List.filterMap_cons, hentry]

/-- Claim C2: for every raw text and every key, the mapping produced by the
info-parsing step of `check_connection` holds, at each key, the stripped
value of the last line whose colon-split key matches; lines with a colon
contribute exactly the stripped texts around their first colon and lines
without a colon contribute nothing. -/
theorem parseInfo_last_wins_spec (raw k : String) :
    dictLookup (parseInfo raw) k = lastWins ((splitLines raw).filterMap infoEntry) k := by
  unfold parseInfo lastWins
  exact lookup_foldl_parseStep (splitLines raw) [] k

/-- Claim C1: the spec's happy-path poll.  With the identifier-lister
printing "ABCD1234\n", the info-dumper exiting 0 with the three-key output,
and the diagnostics-dumper printing "CurrentCapacity = 87\n", `refresh`
stores identifier "ABCD1234" and publishes exactly the three info keys plus
a BatteryLevel entry whose value denotes the integer 87 (the code keeps it
as the string "87"). -/
theorem check_connection_happy_path : ∀ st : Option String,
    check_connection st envId envInfo envBattery =
      ⟨Except.ok true, some "ABCD1234",
       [[("DeviceName", "Test iPhone"), ("ProductType", "iPhone14,2"),
         ("ProductVersion", "16.6"), ("BatteryLevel", "87")]],
       [],
       [("idevice_id.exe", ["-l"]), ("ideviceinfo.exe", ["-u", "ABCD1234"]),
        ("idevicediagnostics.exe", ["ioregentry", "AppleSmartBattery"])]⟩ ∧
    pyInt? "87" = some (87 : Int) :=
  fun _ => ⟨rfl, rfl⟩

theorem batteryLoop_lastField (ls : List String) (d : List (String × String)) :
    (batteryLoop d ls).map (fun d' => dictLookup d' "BatteryLevel") =
    lastField (ls.filter (fun l => strContains l "CurrentCapacity"))
      (dictLookup d "BatteryLevel") := by
  induction ls generalizing d with
  | nil => rfl
  | cons l ls ih =>
    cases hc : strContains l "CurrentCapacity" with
    | false =>
      simp only [batteryLoop, hc, List.filter_cons, Bool.false_eq_true, if_false]
      exact ih d
    | true =>
      cases hsp : splitChar '=' l.data with
      | nil =>
        simp [batteryLoop, lastField, hc, hsp, List.filter_cons, Except.map]
      | cons a tl =>
        cases tl with
        | nil =>
          simp [batteryLoop, lastField, hc, hsp, List.filter_cons, Except.map]
        | cons v rest =>
          simp only [batteryLoop, hc, hsp, List.filter_cons, if_true]
          rw [ih]
          rw [dictLookup_dictInsert]
          simp [lastField, hsp]

/-- Claim C3 (amended): the battery-extraction step scans ALL lines
containing "CurrentCapacity"; each one contributes the stripped text
between the first and second `=` (Python `line.split("=")[1].strip()`), kept
as a string without integer parsing, so the LAST matching line wins; a
matching line with no `=` raises an uncaught `IndexError`; the result is
absent when no line matches. -/
theorem extractBattery_characterization (raw : String) :
    extractBattery raw =
      (if strContains raw "CurrentCapacity" then
        lastField ((splitLines raw).filter (fun l => strContains l "CurrentCapacity")) none
      else Except.ok none) := by
  unfold extractBattery
  cases hg : strContains raw "CurrentCapacity"
  · simp
  · simp only [if_true]
    have h := batteryLoop_lastField (splitLines raw) []
    simpa using h

/-- Claim C3 counterexample: on two "CurrentCapacity" lines the code keeps
the LAST line's value (the string "42"), while the claim demands the integer
after the first `=` of the FIRST matching line (87). -/
theorem extractBattery_first_line_counterexample :
    extractBattery "CurrentCapacity = 87\nCurrentCapacity = 42" = Except.ok (some "42") ∧
    extractBatterySpec "CurrentCapacity = 87\nCurrentCapacity = 42" = some (87 : Int) :=
  ⟨rfl, rfl⟩

/-- Claim C8 (code bug): when the diagnostics output contains a
"CurrentCapacity" line without `=`, the index `[1]` in the battery loop
raises `IndexError`, which escapes `check_connection` — no record is
published.  This contradicts the spec's failure semantics (§4.4, §7). -/
theorem check_connection_battery_index_error :
    (check_connection none envId envInfo envBatteryNoEq).ret =
      Except.error "IndexError: list index out of range" ∧
    (check_connection none envId envInfo envBatteryNoEq).emits = [] :=
  ⟨rfl, rfl⟩

/-- Claim C4: whenever the identifier-listing command yields no usable
output (`run_command` returned `None`, or the stripped stdout is empty),
`check_connection` publishes the empty record, returns `False`, leaves the
stored identifier untouched, and issues no further external command — for
every prior state, so in particular this is the Connected-to-Disconnected
transition. -/
theorem check_connection_empty_listing (st : Option String) (e1 e2 e3 : Env)
    (h : (run_command "idevice_id.exe" ["-l"] 30 e1).result = none ∨
         ∃ r, (run_command "idevice_id.exe" ["-l"] 30 e1).result = some r ∧
           pyStrip r.stdout = "") :
    check_connection st e1 e2 e3 =
      ⟨Except.ok false, st, [[]], (run_command "idevice_id.exe" ["-l"] 30 e1).logs,
       [("idevice_id.exe", ["-l"])]⟩ := by
  obtain ⟨te, sp⟩ := e1
  cases te
  · rfl
  · cases sp with
    | timeout => rfl
    | raised m => rfl
    | completed rc out err =>
      rcases h with h | ⟨r, hr, hs⟩
      · exact absurd h (by simp [run_command])
      · have hre : (⟨rc, out, err⟩ : CompletedProcess) = r := by
          simpa [run_command] using hr
        subst hre
        simp [check_connection, run_command, hs]

/-- Concrete instance of `check_connection_empty_listing`: a previously
connected coordinator polls while the lister prints nothing. -/
theorem check_connection_empty_listing_witness :
    check_connection (some "OLD") envBlank envInfo envBattery =
      ⟨Except.ok false, some "OLD", [[]], [], [("idevice_id.exe", ["-l"])]⟩ :=
  check_connection_empty_listing (some "OLD") envBlank envInfo envBattery
    (Or.inr ⟨⟨0, "", ""⟩, rfl, rfl⟩)

/-- Claim C5: when the lister yields a non-empty identifier but the
info-dump command does not exit ok (returned `None` — missing tool, timeout,
I/O failure — or a nonzero exit code), `check_connection` publishes the
empty record and returns `False`: the identifier is never surfaced in the
published record. -/
theorem check_connection_info_failure (st : Option String) (e1 e2 e3 : Env)
    (r1 : CompletedProcess)
    (h1 : (run_command "idevice_id.exe" ["-l"] 30 e1).result = some r1)
    (hne : pyStrip r1.stdout ≠ "")
    (h2 : (run_command "ideviceinfo.exe" ["-u", firstLine (pyStrip r1.stdout)] 30 e2).result
            = none ∨
          ∃ r2,
            (run_command "ideviceinfo.exe" ["-u", firstLine (pyStrip r1.stdout)] 30 e2).result
              = some r2 ∧ r2.returncode ≠ 0) :
    (check_connection st e1 e2 e3).emits = [[]] ∧
    (check_connection st e1 e2 e3).ret = Except.ok false := by
  obtain ⟨te1, sp1⟩ := e1
  cases te1
  · simp [run_command] at h1
  · cases sp1 with
    | timeout => simp [run_command] at h1
    | raised m => simp [run_command] at h1
    | completed rc out err =>
      have hre : (⟨rc, out, err⟩ : CompletedProcess) = r1 := by
        simpa [run_command] using h1
      subst hre
      obtain ⟨te2, sp2⟩ := e2
      cases te2
      · simp [check_connection, run_command, hne]
      · cases sp2 with
        | timeout => simp [check_connection, run_command, hne]
        | raised m => simp [check_connection, run_command, hne]
        | completed rc2 out2 err2 =>
          rcases h2 with h2 | ⟨r2, hr2, hrc⟩
          · simp [run_command] at h2
          · have hre2 : (⟨rc2, out2, err2⟩ : CompletedProcess) = r2 := by
              simpa [run_command] using hr2
            subst hre2
            simp only [CompletedProcess.returncode] at hrc
            simp [check_connection, run_command, hne, hrc]

/-- Concrete instance of `check_connection_info_failure`: the lister finds
"ABCD1234" but the info-dumper exits 1. -/
theorem check_connection_info_failure_witness :
    (check_connection none envId envFailInfo envBattery).emits = [[]] ∧
    (check_connection none envId envFailInfo envBattery).ret = Except.ok false :=
  check_connection_info_failure none envId envFailInfo envBattery ⟨0, "ABCD1234\n", ""⟩
    rfl (by decide) (Or.inr ⟨⟨1, "boom", ""⟩, rfl, by decide⟩)

/-- Claim C6: `mount_device` with no stored identifier (Python-falsy: `None`
or the empty string) returns `False` and issues no external command; with an
identifier it always unmounts first, then runs the mount command with the
fixed mount point and the stored identifier, returning `True` exactly when
that command ran and exited 0. -/
theorem mount_device_spec :
    (∀ eU eM : Env, mount_device none eU eM = ⟨false, [], []⟩ ∧
      mount_device (some "") eU eM = ⟨false, [], []⟩) ∧
    (∀ (u : String) (eU eM : Env), u ≠ "" →
      (mount_device (some u) eU eM).calls =
        [("fusermount.exe", ["-u", mount_point]),
         ("ifuse.exe", [mount_point, "--udid", u])] ∧
      ((mount_device (some u) eU eM).ret = true ↔
        ∃ r, (run_command "ifuse.exe" [mount_point, "--udid", u] 30 eM).result = some r ∧
          r.returncode = 0)) := by
  constructor
  · intro eU eM
    exact ⟨rfl, rfl⟩
  · intro u eU eM hu
    constructor
    · simp [mount_device, hu, unmount_device]
    · obtain ⟨teM, spM⟩ := eM
      cases teM
      · simp [mount_device, run_command, hu]
      · cases spM with
        | timeout => simp [mount_device, run_command, hu]
        | raised m => simp [mount_device, run_command, hu]
        | completed rc out err => simp [mount_device, run_command, hu]

/-- Concrete instance of `mount_device_spec`: mounting with identifier
"ABCD1234" unmounts first and succeeds when `ifuse.exe` exits 0. -/
theorem mount_device_spec_witness :
    (mount_device (some "ABCD1234") envBlank envBlank).calls =
      [("fusermount.exe", ["-u", mount_point]),
       ("ifuse.exe", [mount_point, "--udid", "ABCD1234"])] ∧
    ((mount_device (some "ABCD1234") envBlank envBlank).ret = true ↔
      ∃ r, (run_command "ifuse.exe" [mount_point, "--udid", "ABCD1234"] 30 envBlank).result
          = some r ∧ r.returncode = 0) :=
  mount_device_spec.2 "ABCD1234" envBlank envBlank (by decide)

/-- Claim C10: a poll in which the identifier-lister yields no output leaves
the previously stored identifier unchanged, so a subsequent `mount_device`
still passes the identifier precondition and issues the mount command with
the stale identifier of the last-seen device. -/
theorem stale_udid_after_disconnect (u : String) (e1 e2 e3 eU eM : Env)
    (hu : u ≠ "")
    (h : (run_command "idevice_id.exe" ["-l"] 30 e1).result = none ∨
         ∃ r, (run_command "idevice_id.exe" ["-l"] 30 e1).result = some r ∧
           pyStrip r.stdout = "") :
    (check_connection (some u) e1 e2 e3).udid = some u ∧
    (mount_device (check_connection (some u) e1 e2 e3).udid eU eM).calls =
      [("fusermount.exe", ["-u", mount_point]),
       ("ifuse.exe", [mount_point, "--udid", u])] := by
  have hud : (check_connection (some u) e1 e2 e3).udid = some u := by
    obtain ⟨te, sp⟩ := e1
    cases te
    · rfl
    · cases sp with
      | timeout => rfl
      | raised m => rfl
      | completed rc out err =>
        rcases h with h | ⟨r, hr, hs⟩
        · simp [run_command] at h
        · have hre : (⟨rc, out, err⟩ : CompletedProcess) = r := by
            simpa [run_command] using hr
          subst hre
          simp [check_connection, run_command, hs]
  refine ⟨hud, ?_⟩
  rw [hud]
  simp [mount_device, hu, unmount_device]

/-- Concrete instance of `stale_udid_after_disconnect`: after a disconnect
poll, mounting still targets "ABCD1234". -/
theorem stale_udid_after_disconnect_witness :
    (check_connection (some "ABCD1234") envBlank envInfo envBattery).udid = some "ABCD1234" ∧
    (mount_device (check_connection (some "ABCD1234") envBlank envInfo envBattery).udid
        envBlank envBlank).calls =
      [("fusermount.exe", ["-u", mount_point]),
       ("ifuse.exe", [mount_point, "--udid", "ABCD1234"])] :=
  stale_udid_after_disconnect "ABCD1234" envBlank envInfo envBattery envBlank envBlank
    (by decide) (Or.inr ⟨⟨0, "", ""⟩, rfl, rfl⟩)

theorem msg_ne_to_io (c m : String) :
    "Command timed out: " ++ c ≠ "Command failed: " ++ c ++ " - " ++ m := by
  intro h
  have hd := congrArg String.data h
  simp only [String.data_append] at hd
  have hA : 8 < ("Command timed out: ".data).length := by decide
  have hB : 8 < ("Command failed: ".data).length := by decide
  have hBC : 8 < ("Command failed: ".data ++ c.data).length := by
    rw [List.length_append]
    omega
  have hBCD : 8 < (("Command failed: ".data ++ c.data) ++ " - ".data).length := by
    rw [List.length_append]
    omega
  have h1 : ("Command timed out: ".data ++ c.data)[8]? = some 't' := by
    rw [List.getElem?_append_left hA]
    decide
  have h2 : ((("Command failed: ".data ++ c.data) ++ " - ".data) ++ m.data)[8]? = some 'f' := by
    rw [List.getElem?_append_left hBCD, List.getElem?_append_left hBC,
        List.getElem?_append_left hB]
    decide
  rw [hd] at h1
  rw [h1] at h2
  exact absurd (Option.some.inj h2) (by decide)

/-- Claim C7: every `run_command` call exhibits exactly one of the four
result kinds ok / not-found / timed-out / io-error (the embedding is a total
function, so no exception reaches the caller); an absent executable yields
kind not-found with an error log and no spawned process; and an ok result
carries the process's numeric exit code, whatever it is. -/
theorem run_command_kinds (command : String) (args : List String) (timeout : Nat) (env : Env) :
    (∃! k : RunKind, IsKind command (run_command command args timeout env) k) ∧
    (∀ sp : SpawnResult,
      (run_command command args timeout ⟨false, sp⟩).spawned = false ∧
      IsKind command (run_command command args timeout ⟨false, sp⟩) RunKind.notFound) ∧
    (∀ (rc : Int) (out err : String),
      (run_command command args timeout ⟨true, SpawnResult.completed rc out err⟩).result =
        some ⟨rc, out, err⟩) := by
  refine ⟨?_, fun sp => ⟨rfl, rfl, rfl, rfl⟩, fun rc out err => rfl⟩
  obtain ⟨te, sp⟩ := env
  cases te
  · refine ⟨RunKind.notFound, ⟨rfl, rfl, rfl⟩, ?_⟩
    intro k hk
    cases k with
    | ok =>
      obtain ⟨r, hr⟩ := hk
      exact absurd hr (by simp [run_command])
    | notFound => rfl
    | timedOut => exact absurd hk.2.1 (by simp [run_command])
    | ioError => exact absurd hk.2.1 (by simp [run_command])
  · cases sp with
    | completed rc out err =>
      refine ⟨RunKind.ok, ⟨⟨rc, out, err⟩, rfl⟩, ?_⟩
      intro k hk
      cases k with
      | ok => rfl
      | notFound => exact absurd hk.1 (by simp [run_command])
      | timedOut => exact absurd hk.1 (by simp [run_command])
      | ioError => exact absurd hk.1 (by simp [run_command])
    | timeout =>
      refine ⟨RunKind.timedOut, ⟨rfl, rfl, rfl⟩, ?_⟩
      intro k hk
      cases k with
      | ok =>
        obtain ⟨r, hr⟩ := hk
        exact absurd hr (by simp [run_command])
      | notFound => exact absurd hk.2.1 (by simp [run_command])
      | timedOut => rfl
      | ioError =>
        simp only [IsKind] at hk
        obtain ⟨-, -, m, hm⟩ := hk
        simp [run_command] at hm
        exact absurd hm (msg_ne_to_io command m)
    | raised mm =>
      refine ⟨RunKind.ioError, ⟨rfl, rfl, mm, rfl⟩, ?_⟩
      intro k hk
      cases k with
      | ok =>
        obtain ⟨r, hr⟩ := hk
        exact absurd hr (by simp [run_command])
      | notFound => exact absurd hk.2.1 (by simp [run_command])
      | ioError => rfl
      | timedOut =>
        have hm := hk.2.2
        simp [run_command] at hm
        exact absurd hm.symm (msg_ne_to_io command mm)



theorem proj_all_eq (a b : Bool) (hab : a ≠ b) :
    ∀ (s : Sched) (l : List Ev), proj a s = [] → proj b s = l →
      s = l.map (fun e => (b, e)) := by
  intro s
  induction s with
  | nil =>
    intro l h1 h2
    simp [proj] at h2
    subst h2
    rfl
  | cons p s ih =>
    obtain ⟨t, e⟩ := p
    intro l h1 h2
    by_cases ht : t = a
    · subst ht
      simp [proj] at h1
    · have htb : b = t := by
        cases t <;> cases a <;> cases b <;> simp_all
      subst htb
      have hba : ¬ (b = a) := fun hh => hab hh.symm
      simp [proj, hba] at h1
      simp [proj] at h2
      subst h2
      simp only [List.map_cons]
      exact congrArg (List.cons (b, e)) (ih (proj b s) h1 rfl)

theorem cmdTrace_tag_cmds (t : Bool) (cs : List String) (rest : Sched) :
    cmdTrace ((cs.map Ev.cmd).map (fun e => (t, e)) ++ rest) = tagCmds t cs ++ cmdTrace rest := by
  induction cs with
  | nil => rfl
  | cons c cs ih =>
    simp only [List.map_cons, List.cons_append, cmdTrace, tagCmds] at ih ⊢
    exact congrArg (List.cons (t, c)) ih

theorem cmdTrace_tag_bracket (t : Bool) (ds : List String) :
    cmdTrace ((bracket ds).map (fun e => (t, e))) = tagCmds t ds := by
  have h := cmdTrace_tag_cmds t ds [(t, Ev.rel)]
  simp only [bracket, List.map_cons, List.map_append, List.map_nil, List.cons_append]
  simp only [cmdTrace]
  rw [h]
  simp [cmdTrace]

theorem running_lemma (a b : Bool) (hab : a ≠ b) :
    ∀ (s : Sched) (cs ds : List String),
      lockOk (some a) s = true →
      proj a s = cs.map Ev.cmd ++ [Ev.rel] →
      proj b s = bracket ds →
      cmdTrace s = tagCmds a cs ++ tagCmds b ds := by
  intro s
  induction s with
  | nil =>
    intro cs ds hl h1 h2
    cases cs <;> simp [proj] at h1
  | cons p s ih =>
    obtain ⟨t, e⟩ := p
    intro cs ds hl h1 h2
    by_cases ht : a = t
    · subst ht
      have hba : ¬ (a = b) := hab
      simp [proj] at h1
      simp [proj, hba] at h2
      cases cs with
      | nil =>
        simp at h1
        obtain ⟨he, hps⟩ := h1
        subst he
        simp [lockOk] at hl
        have hs := proj_all_eq a b hab s (bracket ds) hps h2
        subst hs
        simp only [cmdTrace, List.append_eq, List.map_append, List.map_cons, List.map_nil]
        rw [cmdTrace_tag_cmds b ds [(b, Ev.rel)]]
        simp [cmdTrace, tagCmds]
      | cons c cs' =>
        simp at h1
        obtain ⟨he, hps⟩ := h1
        subst he
        simp [lockOk] at hl
        simp only [cmdTrace]
        rw [ih cs' ds hl hps h2]
        simp [tagCmds]
    · have htb : b = t := by
        cases t <;> cases a <;> cases b <;> simp_all
      subst htb
      have hba : ¬ (b = a) := fun hh => hab hh.symm
      simp [proj, hba] at h1
      simp [proj, bracket] at h2
      obtain ⟨he, -⟩ := h2
      subst he
      simp [lockOk] at hl

theorem serial_of_bracketed (s : Sched) (as bs : List String)
    (hl : lockOk none s = true)
    (h1 : proj false s = bracket as)
    (h2 : proj true s = bracket bs) :
    cmdTrace s = tagCmds false as ++ tagCmds true bs ∨
    cmdTrace s = tagCmds true bs ++ tagCmds false as := by
  cases s with
  | nil => simp [proj, bracket] at h1
  | cons p s =>
    obtain ⟨t, e⟩ := p
    cases t
    · simp only [bracket] at h1
      simp [proj] at h1
      simp [proj] at h2
      obtain ⟨he, hps⟩ := h1
      subst he
      simp [lockOk] at hl
      left
      have h := running_lemma false true (by decide) s as bs hl (by simpa [bracket] using hps) h2
      simpa [cmdTrace] using h
    · simp only [bracket] at h2
      simp [proj] at h1
      simp [proj] at h2
      obtain ⟨he, hps⟩ := h2
      subst he
      simp [lockOk] at hl
      right
      have h := running_lemma true false (by decide) s bs as hl (by simpa [bracket] using hps) h1
      simpa [cmdTrace] using h

/-- Claim C9 (amended): `check_connection` and `mount_device` each hold the
shared `operation_lock` for their full duration, so in every lock-respecting
schedule their external command sequences never interleave (one block runs
entirely before the other); `unmount_device`, however, issues its external
command WITHOUT acquiring the gate (it is called from `mount_device` while
the gate is held, and `threading.Lock` is not reentrant), so a direct
`unmount_device` call is not serialized against the other two operations. -/
theorem lock_serialization_amended :
    (∀ (st : Option String) (e1 e2 e3 : Env) (st' : Option String) (eU eM : Env) (s : Sched),
      lockOk none s = true →
      proj false s = refreshEvents st e1 e2 e3 →
      proj true s = mountEvents st' eU eM →
      (cmdTrace s =
          tagCmds false ((check_connection st e1 e2 e3).calls.map Prod.fst) ++
            tagCmds true ((mount_device st' eU eM).calls.map Prod.fst) ∨
        cmdTrace s =
          tagCmds true ((mount_device st' eU eM).calls.map Prod.fst) ++
            tagCmds false ((check_connection st e1 e2 e3).calls.map Prod.fst))) ∧
    (∀ e : Env, Ev.acq ∉ unmountEvents e ∧ Ev.rel ∉ unmountEvents e) := by
  constructor
  · intro st e1 e2 e3 st' eU eM s hl h1 h2
    exact serial_of_bracketed s _ _ hl h1 h2
  · intro e
    constructor <;> simp [unmountEvents, unmount_device]

/-- Claim C9 counterexample: `unmount_device` takes no lock, so the schedule
`sBad` — in which the unmount command fires between two commands of a
running `check_connection` critical section — respects the lock semantics,
yet the two operations' command sequences interleave.  This refutes the
claim that all three operations serialize on the gate. -/
theorem lock_unmount_interleaving_counterexample :
    Ev.acq ∉ unmountEvents envBlank ∧
    lockOk none sBad = true ∧
    proj false sBad = refreshEvents none envId envInfo envBattery ∧
    proj true sBad = unmountEvents envBlank ∧
    cmdTrace sBad ≠
      tagCmds false ["idevice_id.exe", "ideviceinfo.exe", "idevicediagnostics.exe"] ++
        tagCmds true ["fusermount.exe"] ∧
    cmdTrace sBad ≠
      tagCmds true ["fusermount.exe"] ++
        tagCmds false ["idevice_id.exe", "ideviceinfo.exe", "idevicediagnostics.exe"] :=
  ⟨by decide, rfl, rfl, rfl, by decide, by decide⟩

/-- Concrete instance of `lock_serialization_amended`: on the serial
schedule `sGood` the commands of the two locked operations come out as one
block after the other. -/
theorem lock_serialization_amended_witness :
    (cmdTrace sGood =
        tagCmds false ["idevice_id.exe", "ideviceinfo.exe", "idevicediagnostics.exe"] ++
          tagCmds true ["fusermount.exe", "ifuse.exe"] ∨
      cmdTrace sGood =
        tagCmds true ["fusermount.exe", "ifuse.exe"] ++
          tagCmds false ["idevice_id.exe", "ideviceinfo.exe", "idevicediagnostics.exe"]) ∧
    Ev.acq ∉ unmountEvents envBlank :=
  ⟨lock_serialization_amended.1 none envId envInfo envBattery (some "ABCD1234") envBlank envBlank
      sGood (by decide) (by decide) (by decide),
    (lock_serialization_amended.2 envBlank).1⟩

/-- Concrete instance of `run_command_kinds`: a missing executable yields
kind not-found without spawning. -/
theorem run_command_kinds_witness :
    IsKind "idevice_id.exe"
      (run_command "idevice_id.exe" ["-l"] 30 ⟨false, SpawnResult.timeout⟩) RunKind.notFound ∧
    (run_command "idevice_id.exe" ["-l"] 30 ⟨false, SpawnResult.timeout⟩).spawned = false :=
  ⟨((run_command_kinds "idevice_id.exe" ["-l"] 30
      ⟨false, SpawnResult.timeout⟩).2.1 SpawnResult.timeout).2,
   ((run_command_kinds "idevice_id.exe" ["-l"] 30
      ⟨false, SpawnResult.timeout⟩).2.1 SpawnResult.timeout).1⟩
